import Mathlib

/-!
Shallow embedding of the chubaofs CLI volume commands (src/cli/cmd/vol.go)
and the process supervisor main (src/cmd/cmd.go).

Remote calls and the interactive confirmation prompt are modelled as an
event trace; the results of remote calls are supplied by an environment
record, one field per call site, so each command `Run` body becomes a pure
function from flags × arguments × environment to trace × outcome.
-/

namespace ChubaoFS

/-- proto.SimpleVolView, restricted to the fields read or written by the
volume commands in src/cli/cmd/vol.go. `Capacity` is a Go uint64 and
`DpReplicaNum` a Go uint8, both modelled as `Nat` (mutations that convert
go through `% 256` explicitly); `Status` is a Go uint8. -/
structure SimpleVolView where
  Name : String
  Owner : String
  Capacity : Nat
  DpReplicaNum : Nat
  FollowerRead : Bool
  Authenticate : Bool
  EnableToken : Bool
  AutoRepair : Bool
  ZoneName : String
  Status : Nat
  deriving Repr, DecidableEq

/-- proto.UserInfo, restricted to the `UserID` field read by Transfer. -/
structure UserInfo where
  UserID : String
  deriving Repr, DecidableEq

/-- Go strconv.ParseBool: accepts exactly the twelve literals below. -/
def parseBool (s : String) : Option Bool :=
  if s = "1" ∨ s = "t" ∨ s = "T" ∨ s = "true" ∨ s = "TRUE" ∨ s = "True" then
    some true
  else if s = "0" ∨ s = "f" ∨ s = "F" ∨ s = "false" ∨ s = "FALSE" ∨ s = "False" then
    some false
  else
    none

/-! ## MD5 (crypto/md5) over byte lists, for calcAuthKey -/

/-- 2^32 - 1, the mask for 32-bit words. -/
def mask32 : Nat := 4294967295

/-- Left-rotation of a 32-bit word. -/
def rotl32 (x n : Nat) : Nat := ((x <<< n) ||| (x >>> (32 - n))) % 4294967296

/-- The 64 MD5 sine-derived constants. -/
def md5K : List Nat :=
  [0xd76aa478, 0xe8c7b756, 0x242070db, 0xc1bdceee,
   0xf57c0faf, 0x4787c62a, 0xa8304613, 0xfd469501,
   0x698098d8, 0x8b44f7af, 0xffff5bb1, 0x895cd7be,
   0x6b901122, 0xfd987193, 0xa679438e, 0x49b40821,
   0xf61e2562, 0xc040b340, 0x265e5a51, 0xe9b6c7aa,
   0xd62f105d, 0x02441453, 0xd8a1e681, 0xe7d3fbc8,
   0x21e1cde6, 0xc33707d6, 0xf4d50d87, 0x455a14ed,
   0xa9e3e905, 0xfcefa3f8, 0x676f02d9, 0x8d2a4c8a,
   0xfffa3942, 0x8771f681, 0x6d9d6122, 0xfde5380c,
   0xa4beea44, 0x4bdecfa9, 0xf6bb4b60, 0xbebfbc70,
   0x289b7ec6, 0xeaa127fa, 0xd4ef3085, 0x04881d05,
   0xd9d4d039, 0xe6db99e5, 0x1fa27cf8, 0xc4ac5665,
   0xf4292244, 0x432aff97, 0xab9423a7, 0xfc93a039,
   0x655b59c3, 0x8f0ccc92, 0xffeff47d, 0x85845dd1,
   0x6fa87e4f, 0xfe2ce6e0, 0xa3014314, 0x4e0811a1,
   0xf7537e82, 0xbd3af235, 0x2ad7d2bb, 0xeb86d391]

/-- The per-round left-rotation amounts. -/
def md5S : List Nat :=
  [7, 12, 17, 22, 7, 12, 17, 22, 7, 12, 17, 22, 7, 12, 17, 22,
   5, 9, 14, 20, 5, 9, 14, 20, 5, 9, 14, 20, 5, 9, 14, 20,
   4, 11, 16, 23, 4, 11, 16, 23, 4, 11, 16, 23, 4, 11, 16, 23,
   6, 10, 15, 21, 6, 10, 15, 21, 6, 10, 15, 21, 6, 10, 15, 21]

/-- One MD5 round; `M` maps a message-word index to the 32-bit word. -/
def md5Round (M : Nat → Nat) (st : Nat × Nat × Nat × Nat) (i : Nat) :
    Nat × Nat × Nat × Nat :=
  let a := st.1
  let b := st.2.1
  let c := st.2.2.1
  let d := st.2.2.2
  let fg : Nat × Nat :=
    if i < 16 then ((b &&& c) ||| ((mask32 ^^^ b) &&& d), i)
    else if i < 32 then ((d &&& b) ||| ((mask32 ^^^ d) &&& c), (5 * i + 1) % 16)
    else if i < 48 then (b ^^^ c ^^^ d, (3 * i + 5) % 16)
    else (c ^^^ (b ||| (mask32 ^^^ d)), (7 * i) % 16)
  let f2 := (fg.1 + a + md5K.getD i 0 + M fg.2) % 4294967296
  (d, (b + rotl32 f2 (md5S.getD i 0)) % 4294967296, b, c)

/-- Process one 64-byte chunk. -/
def md5Chunk (st : Nat × Nat × Nat × Nat) (chunk : List Nat) :
    Nat × Nat × Nat × Nat :=
  let M : Nat → Nat := fun j =>
    chunk.getD (4 * j) 0 + (chunk.getD (4 * j + 1) 0) <<< 8 +
    (chunk.getD (4 * j + 2) 0) <<< 16 + (chunk.getD (4 * j + 3) 0) <<< 24
  let r := (List.range 64).foldl (md5Round M) st
  ((st.1 + r.1) % 4294967296, (st.2.1 + r.2.1) % 4294967296,
   (st.2.2.1 + r.2.2.1) % 4294967296, (st.2.2.2 + r.2.2.2) % 4294967296)

/-- Little-endian byte expansion of `x` to `n` bytes. -/
def bytesLE (n x : Nat) : List Nat := (List.range n).map fun i => (x >>> (8 * i)) % 256

/-- MD5 padding: 0x80, zeros to 56 mod 64, then the 64-bit little-endian
bit length. -/
def md5Pad (msg : List Nat) : List Nat :=
  let len := msg.length
  msg ++ [0x80] ++ List.replicate ((120 - (len + 1) % 64) % 64) 0 ++
    bytesLE 8 ((8 * len) % 18446744073709551616)

/-- Split a byte list into 64-byte chunks. -/
def chunk64 : List Nat → List (List Nat)
  | [] => []
  | a :: as => ((a :: as).take 64) :: chunk64 ((a :: as).drop 64)
termination_by l => l.length
decreasing_by simp [List.length_drop]; omega

/-- The MD5 digest (16 bytes) of a byte list. -/
def md5Digest (msg : List Nat) : List Nat :=
  let r := (chunk64 (md5Pad msg)).foldl md5Chunk
    (0x67452301, 0xefcdab89, 0x98badcfe, 0x10325476)
  bytesLE 4 r.1 ++ bytesLE 4 r.2.1 ++ bytesLE 4 r.2.2.1 ++ bytesLE 4 r.2.2.2

/-- Lowercase hexadecimal digit. -/
def hexDigitChar (n : Nat) : Char :=
  if n < 10 then Char.ofNat (48 + n) else Char.ofNat (87 + n)

/-- encoding/hex.EncodeToString: lowercase hex of a byte list. -/
def hexEncode (bytes : List Nat) : String :=
  String.mk (bytes.flatMap fun b => [hexDigitChar (b / 16), hexDigitChar (b % 16)])

/-- The UTF-8 bytes of a string, as Go []byte(s). -/
def strBytes (s : String) : List Nat := s.toUTF8.toList.map fun b => b.toNat

/-- calcAuthKey (src/cli/cmd/vol.go:542-547): lowercase hex of the MD5 of
the owner string. -/
def calcAuthKey (key : String) : String :=
  (hexEncode (md5Digest (strBytes key))).toLower

/-! ## Remote calls and events -/

/-- The remote master-API calls issued by the volume commands, with the
arguments they carry. -/
inductive RemoteCall where
  | getVolumeSimpleInfo (name : String)
  | updateVolume (name : String) (capacity : Nat) (replicaNum : Int)
      (followerRead authenticate enableToken autoRepair : Bool)
      (authKey zoneName : String)
  | deleteVolume (name authKey : String)
  | createVolume (name owner : String) (mpCount : Int) (dpSize capacity : Nat)
      (replicas : Int) (followerRead autoRepair : Bool) (zoneName : String)
  | getUserInfo (userID : String)
  | transferVol (volume userSrc userDst : String) (force : Bool)
  | createDataPartition (volume : String) (count : Int)
  deriving Repr, DecidableEq

/-- An observable step of one command invocation: either the interactive
confirmation prompt (stdout + Scanln) or a remote call. -/
inductive Event where
  | promptConfirm
  | call (c : RemoteCall)
  deriving Repr, DecidableEq

/-- Client-side error values set on the command's `err` variable. -/
inductive VolErr where
  | remote (msg : String)
  | parseBoolSyntax (lit : String)
  | statusAbnormal
  | abortByUser
  deriving Repr, DecidableEq

/-- How one command invocation terminates. `errExit` is the errout path
(print to stderr and exit 1); `errReported` is the deferred-errout path
(err set, reported on return); `abortedByUser` is the normal abort print;
`noChanges` is Set's "No changes has been set." print. -/
inductive Outcome where
  | success
  | abortedByUser
  | noChanges
  | errExit (msg : String)
  | errReported (e : VolErr)
  deriving Repr, DecidableEq

/-- The remote calls contained in a trace, in order. -/
def remoteCalls (tr : List Event) : List RemoteCall :=
  tr.filterMap fun e => match e with
    | .call c => some c
    | .promptConfirm => none

/-- Whether an event is the snapshot fetch (GetVolumeSimpleInfo). -/
def isFetch (e : Event) : Bool :=
  match e with
  | .call (.getVolumeSimpleInfo _) => true
  | _ => false

/-- Whether an event is the confirmation prompt. -/
def isConfirm (e : Event) : Bool :=
  match e with
  | .promptConfirm => true
  | _ => false

/-- Whether an event is an applying (mutating) remote call of the
reconciliation commands Set / Delete / Transfer. -/
def isApply (e : Event) : Bool :=
  match e with
  | .call (.updateVolume _ _ _ _ _ _ _ _ _) => true
  | .call (.deleteVolume _ _) => true
  | .call (.transferVol _ _ _ _) => true
  | _ => false

/-- No confirmation prompt and no applying call occurs strictly before the
first snapshot fetch of the trace. -/
def noGateBeforeFetch : List Event → Bool
  | [] => true
  | e :: rest =>
    if isFetch e then true
    else if isConfirm e || isApply e then false
    else noGateBeforeFetch rest

/-- No applying call occurs strictly before the first snapshot fetch of
the trace (confirmation prompts are allowed earlier). -/
def noApplyBeforeFetch : List Event → Bool
  | [] => true
  | e :: rest =>
    if isFetch e then true
    else if isApply e then false
    else noApplyBeforeFetch rest

/-! ## volume set (newVolSetCmd, src/cli/cmd/vol.go:179-319) -/

/-- The flags of `volume set`. String flags default to `""` and numeric
flags to 0, which the Run body treats as "not supplied". -/
structure SetFlags where
  optCapacity : Nat
  optReplicas : Int
  optFollowerRead : String
  optAuthenticate : String
  optEnableToken : String
  optAutoRepair : String
  optZoneName : String
  optYes : Bool
  deriving Repr, DecidableEq

/-- Environment of one `volume set` invocation: the results the remote
endpoints and the operator would supply at each call site. -/
structure SetEnv where
  getVol : Except String SimpleVolView
  userConfirm : String
  updateResult : Except String Unit
  deriving Repr

/-- One boolean-override step of the Set body: skipped when the literal is
empty; otherwise parsed with strconv.ParseBool, failing with the working
copy as it stands, or applying the setter and marking isChange. The state
is (isChange, working copy). -/
def setBool (field : SimpleVolView → Bool → SimpleVolView) (lit : String)
    (st : Bool × SimpleVolView) :
    Except (SimpleVolView × String) (Bool × SimpleVolView) :=
  if lit = "" then .ok st
  else
    match parseBool lit with
    | none => .error (st.2, lit)
    | some b => .ok (true, field st.2 b)

/-- The capacity override step of the Set body (vol.go:210-216): a Go
uint64 flag defaulting to 0, applied only when positive. The state is
(isChange, working copy). -/
def capStep (f : SetFlags) (vv0 : SimpleVolView) : Bool × SimpleVolView :=
  if 0 < f.optCapacity then (true, {vv0 with Capacity := f.optCapacity})
  else (false, vv0)

/-- The replica-count override step (vol.go:217-223); the Go assignment is
`vv.DpReplicaNum = uint8(optReplicas)`, a mod-256 conversion. -/
def repStep (f : SetFlags) (st : Bool × SimpleVolView) : Bool × SimpleVolView :=
  if 0 < f.optReplicas then
    (true, {st.2 with DpReplicaNum := (f.optReplicas % 256).toNat})
  else st

/-- The zone-name override step (vol.go:269-275). -/
def zoneStep (f : SetFlags) (st : Bool × SimpleVolView) : Bool × SimpleVolView :=
  if f.optZoneName ≠ "" then (true, {st.2 with ZoneName := f.optZoneName})
  else st

/-- The override-application sequence of the Set body (vol.go:210-275), in
source order: capacity, replicas, follower-read, authenticate,
enable-token, auto-repair, zone name. Returns the working copy at the
failure point and the offending literal on a ParseBool error, otherwise
(isChange, working copy). -/
def applyOverrides (f : SetFlags) (vv0 : SimpleVolView) :
    Except (SimpleVolView × String) (Bool × SimpleVolView) :=
  match setBool (fun v b => {v with FollowerRead := b}) f.optFollowerRead
      (repStep f (capStep f vv0)) with
  | .error e => .error e
  | .ok st3 =>
  match setBool (fun v b => {v with Authenticate := b}) f.optAuthenticate st3 with
  | .error e => .error e
  | .ok st4 =>
  match setBool (fun v b => {v with EnableToken := b}) f.optEnableToken st4 with
  | .error e => .error e
  | .ok st5 =>
  match setBool (fun v b => {v with AutoRepair := b}) f.optAutoRepair st5 with
  | .error e => .error e
  | .ok st6 => .ok (zoneStep f st6)

/-- The Set body after a successful snapshot fetch of `vv0`: apply the
overrides, then the no-change check, the confirmation gate, and the
UpdateVolume call carrying the full working copy plus the auth key derived
from the (unmodified) owner. Returns (trace after the fetch event,
outcome, final working copy). -/
def volSetCore (f : SetFlags) (env : SetEnv) (vv0 : SimpleVolView) :
    List Event × Outcome × Option SimpleVolView :=
  match applyOverrides f vv0 with
  | .error e => ([], .errReported (.parseBoolSyntax e.2), some e.1)
  | .ok st =>
    if st.1 = false then ([], .noChanges, some st.2)
    else if f.optYes = false ∧ env.userConfirm ≠ "yes" ∧ env.userConfirm.length ≠ 0 then
      ([.promptConfirm], .errReported .abortByUser, some st.2)
    else
      let pre : List Event := if f.optYes then [] else [.promptConfirm]
      let upd := Event.call (.updateVolume st.2.Name st.2.Capacity
        (Int.ofNat st.2.DpReplicaNum) st.2.FollowerRead st.2.Authenticate
        st.2.EnableToken st.2.AutoRepair (calcAuthKey st.2.Owner) st.2.ZoneName)
      match env.updateResult with
      | .error msg => (pre ++ [upd], .errReported (.remote msg), some st.2)
      | .ok _ => (pre ++ [upd], .success, some st.2)

/-- The result of one `volume set` invocation: the event trace, the
outcome, and the working copy `vv` as it stands when the Run body
returns (none when the snapshot fetch itself failed). -/
structure SetResult where
  trace : List Event
  outcome : Outcome
  workingCopy : Option SimpleVolView
  deriving Repr, DecidableEq

/-- The Run body of `volume set` (vol.go:196-301): fetch the snapshot
first, then hand over to `volSetCore`. -/
def volSetRun (f : SetFlags) (volumeName : String) (env : SetEnv) : SetResult :=
  match env.getVol with
  | .error msg =>
    ⟨[Event.call (.getVolumeSimpleInfo volumeName)], .errReported (.remote msg), none⟩
  | .ok vv0 =>
    let r := volSetCore f env vv0
    ⟨Event.call (.getVolumeSimpleInfo volumeName) :: r.1, r.2.1, r.2.2⟩

/-- The capacities carried by the UpdateVolume calls of a trace. -/
def updateCaps (tr : List Event) : List Nat :=
  tr.filterMap fun e => match e with
    | .call (.updateVolume _ c _ _ _ _ _ _ _) => some c
    | _ => none

/-- The replica numbers carried by the UpdateVolume calls of a trace. -/
def updateReps (tr : List Event) : List Int :=
  tr.filterMap fun e => match e with
    | .call (.updateVolume _ _ r _ _ _ _ _ _) => some r
    | _ => none

/-- The auth keys carried by the UpdateVolume calls of a trace. -/
def updateAuthKeys (tr : List Event) : List String :=
  tr.filterMap fun e => match e with
    | .call (.updateVolume _ _ _ _ _ _ _ k _) => some k
    | _ => none

/-! ## volume delete (newVolDeleteCmd, src/cli/cmd/vol.go:393-434) -/

/-- Environment of one `volume delete` invocation. -/
structure DeleteEnv where
  userConfirm : String
  getVol : Except String SimpleVolView
  deleteResult : Except String Unit
  deriving Repr

/-- The Run body of `volume delete`: confirmation gate first (exact "yes"
required), then the snapshot fetch to obtain the owner, then DeleteVolume
with the owner-derived auth key. errout exits on a failed call. -/
def volDeleteRun (optYes : Bool) (volumeName : String) (env : DeleteEnv) :
    List Event × Outcome :=
  let pre : List Event := if optYes then [] else [.promptConfirm]
  if optYes = false ∧ env.userConfirm ≠ "yes" then (pre, .abortedByUser)
  else
    let fetch := Event.call (.getVolumeSimpleInfo volumeName)
    match env.getVol with
    | .error msg => (pre ++ [fetch], .errExit msg)
    | .ok svv =>
      let del := Event.call (.deleteVolume volumeName (calcAuthKey svv.Owner))
      match env.deleteResult with
      | .error msg => (pre ++ [fetch, del], .errExit msg)
      | .ok _ => (pre ++ [fetch, del], .success)

/-! ## volume transfer (newVolTransferCmd, src/cli/cmd/vol.go:441-498) -/

/-- Environment of one `volume transfer` invocation. -/
structure TransferEnv where
  userConfirm : String
  getVol : Except String SimpleVolView
  getUser : Except String UserInfo
  transferResult : Except String Unit
  deriving Repr

/-- The Run body of `volume transfer`: confirmation gate first (exact
"yes" required), then the snapshot fetch, the status precondition, the
user lookup, and the TransferVol call carrying {volume, snapshot owner,
looked-up user id, force}. -/
def volTransferRun (optYes optForce : Bool) (volume userID : String)
    (env : TransferEnv) : List Event × Outcome :=
  let pre : List Event := if optYes then [] else [.promptConfirm]
  if optYes = false ∧ env.userConfirm ≠ "yes" then (pre, .abortedByUser)
  else
    let fetch := Event.call (.getVolumeSimpleInfo volume)
    match env.getVol with
    | .error msg => (pre ++ [fetch], .errReported (.remote msg))
    | .ok vv =>
      if vv.Status ≠ 0 then (pre ++ [fetch], .errReported .statusAbnormal)
      else
        let lookup := Event.call (.getUserInfo userID)
        match env.getUser with
        | .error msg => (pre ++ [fetch, lookup], .errReported (.remote msg))
        | .ok ui =>
          let tc := Event.call (.transferVol volume vv.Owner ui.UserID optForce)
          match env.transferResult with
          | .error msg => (pre ++ [fetch, lookup, tc], .errReported (.remote msg))
          | .ok _ => (pre ++ [fetch, lookup, tc], .success)

/-! ## volume create (newVolCreateCmd, src/cli/cmd/vol.go:114-171) -/

/-- The built-in defaults of `volume create` (vol.go:106-111). -/
def cmdVolDefaultMPCount : Int := 3

/-- Default data-partition size in GB. -/
def cmdVolDefaultDPSize : Nat := 120

/-- Default capacity in GB. -/
def cmdVolDefaultCapacity : Nat := 10

/-- Default replica count. -/
def cmdVolDefaultReplicas : Int := 3

/-- Default follower-read setting. -/
def cmdVolDefaultFollowerReader : Bool := true

/-- Default zone name. -/
def cmdVolDefaultZoneName : String := "default"

/-- The flags of `volume create`, with their registered defaults in
`defaultCreateFlags`. -/
structure CreateFlags where
  optMPCount : Int
  optDPSize : Nat
  optCapacity : Nat
  optReplicas : Int
  optFollowerRead : Bool
  optAutoRepair : Bool
  optZoneName : String
  optYes : Bool
  deriving Repr, DecidableEq

/-- The flag values of a `volume create` invocation where every optional
flag is omitted (vol.go:162-169). -/
def defaultCreateFlags : CreateFlags :=
  { optMPCount := cmdVolDefaultMPCount
    optDPSize := cmdVolDefaultDPSize
    optCapacity := cmdVolDefaultCapacity
    optReplicas := cmdVolDefaultReplicas
    optFollowerRead := cmdVolDefaultFollowerReader
    optAutoRepair := false
    optZoneName := cmdVolDefaultZoneName
    optYes := false }

/-- Environment of one `volume create` invocation. -/
structure CreateEnv where
  userConfirm : String
  createResult : Except String Unit
  deriving Repr

/-- The Run body of `volume create`: confirmation gate (empty input counts
as consent), then the single CreateVolume call. -/
def volCreateRun (f : CreateFlags) (volumeName userID : String)
    (env : CreateEnv) : List Event × Outcome :=
  let pre : List Event := if f.optYes then [] else [.promptConfirm]
  if f.optYes = false ∧ env.userConfirm ≠ "yes" ∧ env.userConfirm.length ≠ 0 then
    (pre, .abortedByUser)
  else
    let c := Event.call (.createVolume volumeName userID f.optMPCount f.optDPSize
      f.optCapacity f.optReplicas f.optFollowerRead f.optAutoRepair f.optZoneName)
    match env.createResult with
    | .error msg => (pre ++ [c], .errExit msg)
    | .ok _ => (pre ++ [c], .success)

/-! ## process supervisor tail of main (src/cmd/cmd.go:182-195) -/

/-- The observable lifecycle steps of the supervisor once the server
instance and logging are initialized. -/
inductive MainEvent where
  | interceptSignalReg
  | startCall
  | fatalLogged
  | logFlushed
  | syncCall
  | exited (code : Nat)
  deriving Repr, DecidableEq

/-- cmd.go:182-195: register the signal interceptor, call Start; on Start
failure print and log fatally, flush, exit 1 (never calling Sync); on
success block in Sync, flush, exit 0. -/
def serverRun (startResult : Except String Unit) : List MainEvent :=
  [.interceptSignalReg, .startCall] ++
    match startResult with
    | .error _ => [.fatalLogged, .logFlushed, .exited 1]
    | .ok _ => [.syncCall, .logFlushed, .exited 0]

/-! ## Derived predicates about the Set body -/

/-- A boolean-override literal passes the Set body: either not supplied or
accepted by strconv.ParseBool. -/
def boolLitOk (lit : String) : Bool := (lit == "") || (parseBool lit).isSome

/-- All four boolean overrides of a Set invocation pass ParseBool. -/
def allBoolsOk (f : SetFlags) : Bool :=
  boolLitOk f.optFollowerRead && boolLitOk f.optAuthenticate &&
  boolLitOk f.optEnableToken && boolLitOk f.optAutoRepair

/-- At least one override flag of a Set invocation was supplied with a
non-sentinel value (this is `isChange` as a function of the flags). -/
def anyOverride (f : SetFlags) : Bool :=
  decide (0 < f.optCapacity) || decide (0 < f.optReplicas) ||
  !(f.optFollowerRead == "") || !(f.optAuthenticate == "") ||
  !(f.optEnableToken == "") || !(f.optAutoRepair == "") ||
  !(f.optZoneName == "")

/-- Whether one Set invocation reaches the UpdateVolume call, as a
function of the flags and the operator's confirmation text alone. -/
def setIssuesUpdate (f : SetFlags) (confirm : String) : Bool :=
  allBoolsOk f && anyOverride f &&
    (f.optYes || (confirm == "yes") || (confirm.length == 0))

/-- No applying call occurs strictly before the first confirmation prompt
of the trace (an apply-free trace passes vacuously). -/
def confirmBeforeApply : List Event → Bool
  | [] => true
  | e :: rest =>
    if isConfirm e then true
    else if isApply e then false
    else confirmBeforeApply rest

/-- Relation between the fetched snapshot `vv0` and any working copy `wc`
the Set body produces (at a parse failure or at the end of the override
pass): capacity and replica count follow their supplied-iff-positive
sentinel rule, every unsupplied field is unchanged, and name, owner and
status are never touched. -/
def overrideForm (f : SetFlags) (vv0 wc : SimpleVolView) : Prop :=
  wc.Capacity = (if 0 < f.optCapacity then f.optCapacity else vv0.Capacity) ∧
  wc.DpReplicaNum =
    (if 0 < f.optReplicas then (f.optReplicas % 256).toNat else vv0.DpReplicaNum) ∧
  (f.optFollowerRead = "" → wc.FollowerRead = vv0.FollowerRead) ∧
  (f.optAuthenticate = "" → wc.Authenticate = vv0.Authenticate) ∧
  (f.optEnableToken = "" → wc.EnableToken = vv0.EnableToken) ∧
  (f.optAutoRepair = "" → wc.AutoRepair = vv0.AutoRepair) ∧
  (f.optZoneName = "" → wc.ZoneName = vv0.ZoneName) ∧
  wc.Name = vv0.Name ∧ wc.Owner = vv0.Owner ∧ wc.Status = vv0.Status

/-- Whether an outcome is a ParseBool syntax failure. -/
def isParseErr : Outcome → Bool
  | .errReported (.parseBoolSyntax _) => true
  | _ => false

/-- A sample volume snapshot used by concrete evaluations: name "vol1",
owner "owner1", capacity 10 GB, 3 replicas, all toggles off, zone
"default", status 0. -/
def vvStd : SimpleVolView :=
  ⟨"vol1", "owner1", 10, 3, false, false, false, false, "default", 0⟩

/-- A second sample snapshot with a different name and state: name "v2",
owner "o2", capacity 7 GB, 2 replicas, follower-read on, zone "z". -/
def vvAlt : SimpleVolView :=
  ⟨"v2", "o2", 7, 2, true, false, false, false, "z", 0⟩

/-- A sample snapshot sharing vvStd's owner but differing in every other
mutable attribute. -/
def vvOwnerTwin : SimpleVolView :=
  ⟨"other", "owner1", 999, 5, true, true, true, true, "zone9", 0⟩

theorem setBool_ok {field : SimpleVolView → Bool → SimpleVolView} {lit : String}
    {st st' : Bool × SimpleVolView} (h : setBool field lit st = .ok st') :
    (lit = "" ∧ st' = st) ∨
    (lit ≠ "" ∧ ∃ b, parseBool lit = some b ∧ st' = (true, field st.2 b)) := by
  unfold setBool at h
  split at h
  · injection h with h
    exact .inl ⟨by assumption, h.symm⟩
  · split at h
    · cases h
    · injection h with h
      exact .inr ⟨by assumption, _, by assumption, h.symm⟩

theorem setBool_error {field : SimpleVolView → Bool → SimpleVolView} {lit : String}
    {st : Bool × SimpleVolView} {wc : SimpleVolView} {l : String}
    (h : setBool field lit st = .error (wc, l)) :
    lit ≠ "" ∧ parseBool lit = none ∧ wc = st.2 ∧ l = lit := by
  unfold setBool at h
  split at h
  · cases h
  · split at h
    · injection h with h
      exact ⟨by assumption, by assumption, congrArg Prod.fst h.symm,
        congrArg Prod.snd h.symm⟩
    · cases h

theorem capStep_snd (f : SetFlags) (vv0 : SimpleVolView) :
    (capStep f vv0).2 =
      {vv0 with Capacity := if 0 < f.optCapacity then f.optCapacity else vv0.Capacity} := by
  unfold capStep
  split_ifs <;> rfl

theorem capStep_fst (f : SetFlags) (vv0 : SimpleVolView) :
    (capStep f vv0).1 = decide (0 < f.optCapacity) := by
  unfold capStep
  split_ifs with h <;> simp [h]

theorem repStep_snd (f : SetFlags) (st : Bool × SimpleVolView) :
    (repStep f st).2 =
      {st.2 with DpReplicaNum :=
        if 0 < f.optReplicas then (f.optReplicas % 256).toNat else st.2.DpReplicaNum} := by
  unfold repStep
  split_ifs <;> rfl

theorem repStep_fst (f : SetFlags) (st : Bool × SimpleVolView) :
    (repStep f st).1 = (decide (0 < f.optReplicas) || st.1) := by
  unfold repStep
  split_ifs with h <;> simp [h]

theorem zoneStep_snd (f : SetFlags) (st : Bool × SimpleVolView) :
    (zoneStep f st).2 =
      {st.2 with ZoneName :=
        if f.optZoneName ≠ "" then f.optZoneName else st.2.ZoneName} := by
  unfold zoneStep
  split_ifs <;> rfl

theorem zoneStep_fst (f : SetFlags) (st : Bool × SimpleVolView) :
    (zoneStep f st).1 = (!(f.optZoneName == "") || st.1) := by
  unfold zoneStep
  split_ifs with h <;> simp_all

theorem overrideForm_FR {f : SetFlags} {vv0 w : SimpleVolView} {b : Bool}
    (H : overrideForm f vv0 w) (h : f.optFollowerRead ≠ "") :
    overrideForm f vv0 {w with FollowerRead := b} := by
  simp_all [overrideForm]

theorem overrideForm_AU {f : SetFlags} {vv0 w : SimpleVolView} {b : Bool}
    (H : overrideForm f vv0 w) (h : f.optAuthenticate ≠ "") :
    overrideForm f vv0 {w with Authenticate := b} := by
  simp_all [overrideForm]

theorem overrideForm_ET {f : SetFlags} {vv0 w : SimpleVolView} {b : Bool}
    (H : overrideForm f vv0 w) (h : f.optEnableToken ≠ "") :
    overrideForm f vv0 {w with EnableToken := b} := by
  simp_all [overrideForm]

theorem overrideForm_AR {f : SetFlags} {vv0 w : SimpleVolView} {b : Bool}
    (H : overrideForm f vv0 w) (h : f.optAutoRepair ≠ "") :
    overrideForm f vv0 {w with AutoRepair := b} := by
  simp_all [overrideForm]

theorem overrideForm_zoneStep {f : SetFlags} {vv0 : SimpleVolView}
    {st : Bool × SimpleVolView} (H : overrideForm f vv0 st.2) :
    overrideForm f vv0 (zoneStep f st).2 := by
  rw [zoneStep_snd]
  obtain ⟨h1, h2, h3, h4, h5, h6, h7, h8, h9, h10⟩ := H
  refine ⟨by simpa using h1, by simpa using h2, by simpa using h3,
    by simpa using h4, by simpa using h5, by simpa using h6, ?_,
    by simpa using h8, by simpa using h9, by simpa using h10⟩
  intro hz
  simp [hz, h7 hz]

theorem overrideForm_st2 (f : SetFlags) (vv0 : SimpleVolView) :
    overrideForm f vv0 (repStep f (capStep f vv0)).2 := by
  rw [repStep_snd, capStep_snd]
  refine ⟨by simp, by simp, by simp, by simp, by simp, by simp, by simp,
    by simp, by simp, by simp⟩

theorem applyOverrides_master (f : SetFlags) (vv0 : SimpleVolView) :
    (∀ wc lit, applyOverrides f vv0 = .error (wc, lit) →
      overrideForm f vv0 wc ∧ parseBool lit = none ∧ lit ≠ "" ∧
        allBoolsOk f = false) ∧
    (∀ b wc, applyOverrides f vv0 = .ok (b, wc) →
      overrideForm f vv0 wc ∧ b = anyOverride f ∧ allBoolsOk f = true) := by
  have hst2 := overrideForm_st2 f vv0
  constructor
  · intro wc lit h
    unfold applyOverrides at h
    cases h3 : setBool (fun v b => {v with FollowerRead := b}) f.optFollowerRead
        (repStep f (capStep f vv0)) with
    | error e =>
      simp only [h3] at h
      cases h
      obtain ⟨hne, hp, hwc, hl⟩ := setBool_error h3
      subst hl
      exact ⟨hwc ▸ hst2, hp, hne, by simp [allBoolsOk, boolLitOk, hp, hne]⟩
    | ok st3 =>
      simp only [h3] at h
      have H3 : overrideForm f vv0 st3.2 := by
        rcases setBool_ok h3 with ⟨hl, rfl⟩ | ⟨hl, b, hp, rfl⟩
        · exact hst2
        · exact overrideForm_FR hst2 hl
      cases h4 : setBool (fun v b => {v with Authenticate := b}) f.optAuthenticate st3 with
      | error e =>
        simp only [h4] at h
        cases h
        obtain ⟨hne, hp, hwc, hl⟩ := setBool_error h4
        subst hl
        exact ⟨hwc ▸ H3, hp, hne, by simp [allBoolsOk, boolLitOk, hp, hne]⟩
      | ok st4 =>
        simp only [h4] at h
        have H4 : overrideForm f vv0 st4.2 := by
          rcases setBool_ok h4 with ⟨hl, rfl⟩ | ⟨hl, b, hp, rfl⟩
          · exact H3
          · exact overrideForm_AU H3 hl
        cases h5 : setBool (fun v b => {v with EnableToken := b}) f.optEnableToken st4 with
        | error e =>
          simp only [h5] at h
          cases h
          obtain ⟨hne, hp, hwc, hl⟩ := setBool_error h5
          subst hl
          exact ⟨hwc ▸ H4, hp, hne, by simp [allBoolsOk, boolLitOk, hp, hne]⟩
        | ok st5 =>
          simp only [h5] at h
          have H5 : overrideForm f vv0 st5.2 := by
            rcases setBool_ok h5 with ⟨hl, rfl⟩ | ⟨hl, b, hp, rfl⟩
            · exact H4
            · exact overrideForm_ET H4 hl
          cases h6 : setBool (fun v b => {v with AutoRepair := b}) f.optAutoRepair st5 with
          | error e =>
            simp only [h6] at h
            cases h
            obtain ⟨hne, hp, hwc, hl⟩ := setBool_error h6
            subst hl
            exact ⟨hwc ▸ H5, hp, hne, by simp [allBoolsOk, boolLitOk, hp, hne]⟩
          | ok st6 =>
            simp only [h6] at h
            cases h
  · intro b wc h
    unfold applyOverrides at h
    cases h3 : setBool (fun v b => {v with FollowerRead := b}) f.optFollowerRead
        (repStep f (capStep f vv0)) with
    | error e =>
      simp only [h3] at h
      cases h
    | ok st3 =>
      simp only [h3] at h
      have H3 : overrideForm f vv0 st3.2 ∧
          st3.1 = (!(f.optFollowerRead == "") || (repStep f (capStep f vv0)).1) ∧
          boolLitOk f.optFollowerRead = true := by
        rcases setBool_ok h3 with ⟨hl, rfl⟩ | ⟨hl, bb, hp, rfl⟩
        · exact ⟨hst2, by simp [hl], by simp [boolLitOk, hl]⟩
        · exact ⟨overrideForm_FR hst2 hl, by simp [hl], by simp [boolLitOk, hp]⟩
      cases h4 : setBool (fun v b => {v with Authenticate := b}) f.optAuthenticate st3 with
      | error e =>
        simp only [h4] at h
        cases h
      | ok st4 =>
        simp only [h4] at h
        have H4 : overrideForm f vv0 st4.2 ∧
            st4.1 = (!(f.optAuthenticate == "") || st3.1) ∧
            boolLitOk f.optAuthenticate = true := by
          rcases setBool_ok h4 with ⟨hl, rfl⟩ | ⟨hl, bb, hp, rfl⟩
          · exact ⟨H3.1, by simp [hl], by simp [boolLitOk, hl]⟩
          · exact ⟨overrideForm_AU H3.1 hl, by simp [hl], by simp [boolLitOk, hp]⟩
        cases h5 : setBool (fun v b => {v with EnableToken := b}) f.optEnableToken st4 with
        | error e =>
          simp only [h5] at h
          cases h
        | ok st5 =>
          simp only [h5] at h
          have H5 : overrideForm f vv0 st5.2 ∧
              st5.1 = (!(f.optEnableToken == "") || st4.1) ∧
              boolLitOk f.optEnableToken = true := by
            rcases setBool_ok h5 with ⟨hl, rfl⟩ | ⟨hl, bb, hp, rfl⟩
            · exact ⟨H4.1, by simp [hl], by simp [boolLitOk, hl]⟩
            · exact ⟨overrideForm_ET H4.1 hl, by simp [hl], by simp [boolLitOk, hp]⟩
          cases h6 : setBool (fun v b => {v with AutoRepair := b}) f.optAutoRepair st5 with
          | error e =>
            simp only [h6] at h
            cases h
          | ok st6 =>
            simp only [h6] at h
            have H6 : overrideForm f vv0 st6.2 ∧
                st6.1 = (!(f.optAutoRepair == "") || st5.1) ∧
                boolLitOk f.optAutoRepair = true := by
              rcases setBool_ok h6 with ⟨hl, rfl⟩ | ⟨hl, bb, hp, rfl⟩
              · exact ⟨H5.1, by simp [hl], by simp [boolLitOk, hl]⟩
              · exact ⟨overrideForm_AR H5.1 hl, by simp [hl], by simp [boolLitOk, hp]⟩
            injection h with h
            have hwc : wc = (zoneStep f st6).2 := congrArg Prod.snd h.symm
            have hb : b = (zoneStep f st6).1 := congrArg Prod.fst h.symm
            refine ⟨hwc ▸ overrideForm_zoneStep H6.1, ?_, ?_⟩
            · rw [hb, zoneStep_fst, H6.2.1, H5.2.1, H4.2.1, H3.2.1,
                repStep_fst, capStep_fst]
              simp only [anyOverride]
              cases decide (0 < f.optCapacity) <;>
                cases decide (0 < f.optReplicas) <;>
                cases f.optFollowerRead == "" <;>
                cases f.optAuthenticate == "" <;>
                cases f.optEnableToken == "" <;>
                cases f.optAutoRepair == "" <;>
                cases f.optZoneName == "" <;> rfl
            · simp [allBoolsOk, H3.2.2, H4.2.2, H5.2.2, H6.2.2]

theorem volSetCore_update_calls (f : SetFlags) (env : SetEnv) (vv0 : SimpleVolView) :
    ∃ wc, (volSetCore f env vv0).2.2 = some wc ∧ overrideForm f vv0 wc ∧
      updateAuthKeys (volSetCore f env vv0).1 =
        (if setIssuesUpdate f env.userConfirm then [calcAuthKey wc.Owner] else []) ∧
      updateCaps (volSetCore f env vv0).1 =
        (if setIssuesUpdate f env.userConfirm then [wc.Capacity] else []) ∧
      updateReps (volSetCore f env vv0).1 =
        (if setIssuesUpdate f env.userConfirm then [Int.ofNat wc.DpReplicaNum] else []) := by
  obtain ⟨hErr, hOk⟩ := applyOverrides_master f vv0
  cases hA : applyOverrides f vv0 with
  | error e =>
    obtain ⟨hform, hp, hne, hbad⟩ := hErr e.1 e.2 (by rw [hA])
    refine ⟨e.1, ?_, hform, ?_, ?_, ?_⟩ <;>
      simp [volSetCore, hA, setIssuesUpdate, hbad, updateAuthKeys, updateCaps, updateReps]
  | ok st =>
    obtain ⟨hform, hflag, hok⟩ := hOk st.1 st.2 (by rw [hA])
    by_cases hchange : st.1 = false
    · have hano : anyOverride f = false := by rw [← hflag]; exact hchange
      have hIss : setIssuesUpdate f env.userConfirm = false := by
        simp [setIssuesUpdate, hano]
      refine ⟨st.2, ?_, hform, ?_, ?_, ?_⟩ <;>
        simp [volSetCore, hA, hchange, hIss, updateAuthKeys, updateCaps, updateReps]
    · have hchT : st.1 = true := by
        cases hst : st.1
        · exact absurd hst hchange
        · rfl
      by_cases habort : f.optYes = false ∧ env.userConfirm ≠ "yes" ∧
          env.userConfirm.length ≠ 0
      · have hgate : (f.optYes || (env.userConfirm == "yes") ||
            (env.userConfirm.length == 0)) = false := by
          obtain ⟨hy, hc, hl⟩ := habort
          simp [hy, hc, hl]
        refine ⟨st.2, ?_, hform, ?_, ?_, ?_⟩ <;>
          simp [volSetCore, hA, hchT, habort, setIssuesUpdate, hgate,
            updateAuthKeys, updateCaps, updateReps]
      · have hgate : (f.optYes || (env.userConfirm == "yes") ||
            (env.userConfirm.length == 0)) = true := by
          rcases Decidable.not_and_iff_or_not.mp habort with hy | hrest
          · simp [Bool.of_not_eq_false hy]
          · rcases Decidable.not_and_iff_or_not.mp hrest with hc | hl
            · simp [Decidable.not_not.mp hc]
            · simp [Decidable.not_not.mp hl]
        have hcore : volSetCore f env vv0 =
            ((if f.optYes then [] else [Event.promptConfirm]) ++
              [Event.call (.updateVolume st.2.Name st.2.Capacity
                (Int.ofNat st.2.DpReplicaNum) st.2.FollowerRead st.2.Authenticate
                st.2.EnableToken st.2.AutoRepair (calcAuthKey st.2.Owner)
                st.2.ZoneName)],
             (match env.updateResult with
              | .error msg => Outcome.errReported (.remote msg)
              | .ok _ => Outcome.success), some st.2) := by
          cases hu : env.updateResult <;>
            simp [volSetCore, hA, hchT, habort, hu]
        have hano : anyOverride f = true := by rw [← hflag]; exact hchT
        have hIss : setIssuesUpdate f env.userConfirm = true := by
          simp [setIssuesUpdate, hok, hano, hgate]
        refine ⟨st.2, ?_, hform, ?_, ?_, ?_⟩ <;>
          rw [hcore] <;>
          cases hy : f.optYes <;>
            simp [hIss, updateAuthKeys, updateCaps, updateReps]

theorem volSetCore_error (f : SetFlags) (env : SetEnv) (vv0 : SimpleVolView)
    (hbad : allBoolsOk f = false) :
    ∃ wc lit, parseBool lit = none ∧ lit ≠ "" ∧
      volSetCore f env vv0 = ([], .errReported (.parseBoolSyntax lit), some wc) ∧
      overrideForm f vv0 wc := by
  obtain ⟨hErr, hOk⟩ := applyOverrides_master f vv0
  cases hA : applyOverrides f vv0 with
  | error e =>
    obtain ⟨hform, hp, hne, _⟩ := hErr e.1 e.2 (by rw [hA])
    exact ⟨e.1, e.2, hp, hne, by simp [volSetCore, hA], hform⟩
  | ok st =>
    obtain ⟨_, _, hok⟩ := hOk st.1 st.2 (by rw [hA])
    exact absurd hok (by simp [hbad])

theorem strLen_zero (s : String) : s.length = 0 ↔ s = "" := by
  constructor
  · intro h
    cases s with
    | mk data =>
      simp [String.length] at h
      simp [h]
  · intro h
    simp [h]

theorem noGateBeforeFetch_fetch (n : String) (t : List Event) :
    noGateBeforeFetch (Event.call (.getVolumeSimpleInfo n) :: t) = true := by
  simp [noGateBeforeFetch, isFetch]

theorem noApplyBeforeFetch_fetch (n : String) (t : List Event) :
    noApplyBeforeFetch (Event.call (.getVolumeSimpleInfo n) :: t) = true := by
  simp [noApplyBeforeFetch, isFetch]

theorem noApplyBeforeFetch_pre (y : Bool) (t : List Event)
    (h : noApplyBeforeFetch t = true) :
    noApplyBeforeFetch ((if y then [] else [Event.promptConfirm]) ++ t) = true := by
  cases y <;> simp [noApplyBeforeFetch, isFetch, isApply, h]

theorem volSetCore_trace_shape (f : SetFlags) (env : SetEnv)
    (vv0 : SimpleVolView) :
    (volSetCore f env vv0).1 = [] ∨
    (volSetCore f env vv0).1 = [Event.promptConfirm] ∨
    ∃ e, (volSetCore f env vv0).1 =
      (if f.optYes then [] else [Event.promptConfirm]) ++ [e] := by
  unfold volSetCore
  cases hA : applyOverrides f vv0 with
  | error e => simp
  | ok st =>
    by_cases h1 : st.1 = false
    · simp [h1]
    · have h1T : st.1 = true := by
        cases hst : st.1
        · exact absurd hst h1
        · rfl
      by_cases habort : f.optYes = false ∧ env.userConfirm ≠ "yes" ∧
          env.userConfirm.length ≠ 0
      · simp [h1T, habort]
      · cases hu : env.updateResult <;> simp [h1T, habort, hu]

theorem volDeleteRun_trace_shape (y : Bool) (n : String) (env : DeleteEnv) :
    (volDeleteRun y n env).1 = (if y then [] else [Event.promptConfirm]) ∨
    ∃ t, (volDeleteRun y n env).1 =
      (if y then [] else [Event.promptConfirm]) ++
        (Event.call (.getVolumeSimpleInfo n) :: t) := by
  unfold volDeleteRun
  by_cases hc : y = false ∧ env.userConfirm ≠ "yes"
  · simp [hc]
  · cases hg : env.getVol with
    | error msg => simp [hc, hg]
    | ok svv => cases hd : env.deleteResult <;> simp [hc, hg, hd]

theorem volTransferRun_trace_shape (y fo : Bool) (v u : String)
    (env : TransferEnv) :
    (volTransferRun y fo v u env).1 = (if y then [] else [Event.promptConfirm]) ∨
    ∃ t, (volTransferRun y fo v u env).1 =
      (if y then [] else [Event.promptConfirm]) ++
        (Event.call (.getVolumeSimpleInfo v) :: t) := by
  unfold volTransferRun
  by_cases hc : y = false ∧ env.userConfirm ≠ "yes"
  · simp [hc]
  · cases hg : env.getVol with
    | error msg => simp [hc, hg]
    | ok vv =>
      by_cases hs : vv.Status ≠ 0
      · simp [hc, hg, hs]
      · cases hu : env.getUser with
        | error msg => simp [hc, hg, hs, hu]
        | ok ui => cases ht : env.transferResult <;> simp [hc, hg, hs, hu, ht]

/-- C3 (amended): on the supervisor's run path, if `Start` fails the
process logs fatally, flushes diagnostics and exits 1 without ever calling
`Sync`; if `Start` succeeds, `Sync` is called and the process exits 0
after a flush. In both cases the signal interceptor is registered first,
before `Start` is called — not, as the claim states, only after `Start`
succeeds. -/
theorem supervisor_start_failure_amended (msg : String) :
    serverRun (.error msg) =
      [MainEvent.interceptSignalReg, MainEvent.startCall, MainEvent.fatalLogged,
       MainEvent.logFlushed, MainEvent.exited 1] ∧
    serverRun (.ok ()) =
      [MainEvent.interceptSignalReg, MainEvent.startCall, MainEvent.syncCall,
       MainEvent.logFlushed, MainEvent.exited 0] :=
  ⟨rfl, rfl⟩

/-- C3 counterexample: in a run whose `Start` fails, the signal
interceptor has nevertheless been registered (and `Sync` is indeed never
called) — refuting the claim that the interceptor is registered only
after `Start` succeeds. -/
theorem supervisor_interceptor_cex :
    MainEvent.interceptSignalReg ∈ serverRun (.error "start failed") ∧
    MainEvent.syncCall ∉ serverRun (.error "start failed") := by
  constructor
  · simp [serverRun]
  · simp [serverRun]

theorem updateCaps_fetch (n : String) (t : List Event) :
    updateCaps (Event.call (.getVolumeSimpleInfo n) :: t) = updateCaps t := by
  simp [updateCaps]

theorem updateReps_fetch (n : String) (t : List Event) :
    updateReps (Event.call (.getVolumeSimpleInfo n) :: t) = updateReps t := by
  simp [updateReps]

theorem updateAuthKeys_fetch (n : String) (t : List Event) :
    updateAuthKeys (Event.call (.getVolumeSimpleInfo n) :: t) = updateAuthKeys t := by
  simp [updateAuthKeys]

/-- C1 (amended): within one invocation, `Set` keeps the full order — the
snapshot fetch comes first, no confirmation prompt or applying call
precedes it, and (interactively) the confirmation prompt precedes the
applying call. `Delete` and `Transfer` ask operator confirmation *before*
fetching the snapshot (their traces start with the prompt), but the
applying remote call still never precedes the snapshot fetch. -/
theorem setDeleteTransfer_order_amended :
    (∀ (f : SetFlags) (n : String) (env : SetEnv),
      noGateBeforeFetch (volSetRun f n env).trace = true) ∧
    (∀ (f : SetFlags) (n : String) (env : SetEnv), f.optYes = false →
      confirmBeforeApply (volSetRun f n env).trace = true) ∧
    (∀ (y : Bool) (n : String) (env : DeleteEnv),
      noApplyBeforeFetch (volDeleteRun y n env).1 = true) ∧
    (∀ (y fo : Bool) (v u : String) (env : TransferEnv),
      noApplyBeforeFetch (volTransferRun y fo v u env).1 = true) ∧
    (∀ (n : String) (env : DeleteEnv),
      (volDeleteRun false n env).1.head? = some Event.promptConfirm) ∧
    (∀ (fo : Bool) (v u : String) (env : TransferEnv),
      (volTransferRun false fo v u env).1.head? = some Event.promptConfirm) := by
  refine ⟨?_, ?_, ?_, ?_, ?_, ?_⟩
  · intro f n env
    cases hg : env.getVol with
    | error msg => simp [volSetRun, hg, noGateBeforeFetch, isFetch]
    | ok vv0 => simp [volSetRun, hg, noGateBeforeFetch, isFetch]
  · intro f n env hy
    cases hg : env.getVol with
    | error msg => simp [volSetRun, hg, confirmBeforeApply, isConfirm, isApply, isFetch]
    | ok vv0 =>
      rcases volSetCore_trace_shape f env vv0 with hsh | hsh | ⟨e, hsh⟩ <;>
        simp [volSetRun, hg, hsh, hy, confirmBeforeApply, isConfirm, isApply, isFetch]
  · intro y n env
    rcases volDeleteRun_trace_shape y n env with hsh | ⟨t, hsh⟩ <;> rw [hsh]
    · cases y <;> simp [noApplyBeforeFetch, isFetch, isApply]
    · exact noApplyBeforeFetch_pre y _ (noApplyBeforeFetch_fetch n t)
  · intro y fo v u env
    rcases volTransferRun_trace_shape y fo v u env with hsh | ⟨t, hsh⟩ <;> rw [hsh]
    · cases y <;> simp [noApplyBeforeFetch, isFetch, isApply]
    · exact noApplyBeforeFetch_pre y _ (noApplyBeforeFetch_fetch v t)
  · intro n env
    rcases volDeleteRun_trace_shape false n env with hsh | ⟨t, hsh⟩ <;> rw [hsh] <;> simp
  · intro fo v u env
    rcases volTransferRun_trace_shape false fo v u env with hsh | ⟨t, hsh⟩ <;>
      rw [hsh] <;> simp

/-- C1 counterexample: an interactive Delete invocation whose operator
confirms; its trace asks confirmation before the snapshot fetch, so the
claimed fetch-before-confirmation order is violated. -/
theorem delete_confirm_precedes_fetch_cex :
    noGateBeforeFetch (volDeleteRun false "vol1"
      ⟨"yes", .ok vvStd, .ok ()⟩).1 = false := by
  rfl

/-- C1 witness: the amended order theorem applied to one concrete
interactive Set invocation. -/
theorem setDeleteTransfer_order_witness :
    confirmBeforeApply (volSetRun ⟨20, 0, "", "", "", "", "", false⟩ "vol1"
      ⟨.ok vvStd, "yes", .ok ()⟩).trace = true :=
  setDeleteTransfer_order_amended.2.1 _ _ _ rfl

/-- C4 (amended): a Set invocation with no override flag supplied reports
"no changes" and issues no update call, but it does perform one remote
call — the snapshot fetch — before deciding that (the claim's "zero
remote calls" is off by this one fetch). -/
theorem set_noOverrides_amended (y : Bool) (n : String) (env : SetEnv)
    (vv0 : SimpleVolView) (hg : env.getVol = .ok vv0) :
    volSetRun ⟨0, 0, "", "", "", "", "", y⟩ n env =
      ⟨[Event.call (.getVolumeSimpleInfo n)], .noChanges, some vv0⟩ := by
  simp [volSetRun, hg, volSetCore, applyOverrides, setBool, capStep, repStep,
    zoneStep]

/-- C4 counterexample: a Set invocation with zero overrides reports "no
changes" and yet its trace contains one remote call (the snapshot fetch),
refuting "performs zero remote calls". -/
theorem set_noOverrides_cex :
    (volSetRun ⟨0, 0, "", "", "", "", "", false⟩ "vol1"
      ⟨.ok vvStd, "", .ok ()⟩).outcome = .noChanges ∧
    remoteCalls (volSetRun ⟨0, 0, "", "", "", "", "", false⟩ "vol1"
      ⟨.ok vvStd, "", .ok ()⟩).trace = [.getVolumeSimpleInfo "vol1"] := by
  constructor <;> rfl

/-- C4 witness: the amended no-overrides theorem applied at one concrete
input. -/
theorem set_noOverrides_witness :
    volSetRun ⟨0, 0, "", "", "", "", "", true⟩ "v2"
      ⟨.ok vvAlt, "whatever", .error "unreachable"⟩ =
      ⟨[Event.call (.getVolumeSimpleInfo "v2")], .noChanges, some vvAlt⟩ :=
  set_noOverrides_amended true "v2" _ _ rfl

/-- C5: an interactive Delete proceeds only on the exact literal "yes":
any other confirmation text (empty input and "y" included) terminates the
command as a user abort with no remote call at all, and remote calls are
issued exactly when the response is "yes". -/
theorem delete_confirm_exact_yes (n : String) (env : DeleteEnv) :
    (env.userConfirm ≠ "yes" →
      volDeleteRun false n env = ([Event.promptConfirm], .abortedByUser)) ∧
    (remoteCalls (volDeleteRun false n env).1 = [] ↔ env.userConfirm ≠ "yes") := by
  by_cases hc : env.userConfirm = "yes"
  · refine ⟨fun h => absurd hc h, ?_, fun h => absurd hc h⟩
    intro hr
    exfalso
    cases hg : env.getVol with
    | error msg => simp [volDeleteRun, hc, hg, remoteCalls] at hr
    | ok svv =>
      cases hd : env.deleteResult <;>
        simp [volDeleteRun, hc, hg, hd, remoteCalls] at hr
  · have habort : volDeleteRun false n env = ([Event.promptConfirm], .abortedByUser) := by
      simp [volDeleteRun, hc]
    refine ⟨fun _ => habort, fun _ => hc, ?_⟩
    intro _
    rw [habort]
    simp [remoteCalls]

/-- C5 witness: the Delete confirmation-gate theorem applied to a
concrete invocation answered "y". -/
theorem delete_confirm_exact_yes_witness :
    volDeleteRun false "vol1" ⟨"y", .ok vvStd, .ok ()⟩ =
      ([Event.promptConfirm], .abortedByUser) :=
  (delete_confirm_exact_yes "vol1" ⟨"y", .ok vvStd, .ok ()⟩).1 (by decide)

/-- C6: an interactive Create treats an empty confirmation response as
acceptance (the single creation call is issued), while any non-empty
response other than the exact literal "yes" aborts the command with no
remote call. -/
theorem create_confirm_empty_accepts (f : CreateFlags) (n u : String)
    (env : CreateEnv) (hy : f.optYes = false) :
    (env.userConfirm = "" →
      remoteCalls (volCreateRun f n u env).1 =
        [.createVolume n u f.optMPCount f.optDPSize f.optCapacity f.optReplicas
          f.optFollowerRead f.optAutoRepair f.optZoneName]) ∧
    (env.userConfirm ≠ "yes" → env.userConfirm ≠ "" →
      volCreateRun f n u env = ([Event.promptConfirm], .abortedByUser)) := by
  constructor
  · intro he
    cases hr : env.createResult <;>
      simp [volCreateRun, hy, he, hr, remoteCalls,
        show ("" : String).length = 0 from rfl]
  · intro hne hnemp
    have hlen : env.userConfirm.length ≠ 0 := fun h =>
      hnemp ((strLen_zero env.userConfirm).mp h)
    simp [volCreateRun, hy, hne, hlen]

/-- C6 witness: the Create confirmation theorem applied to a concrete
interactive invocation answered with empty input. -/
theorem create_confirm_empty_accepts_witness :
    remoteCalls (volCreateRun defaultCreateFlags "vol1" "user1"
      ⟨"", .ok ()⟩).1 =
      [.createVolume "vol1" "user1" defaultCreateFlags.optMPCount
        defaultCreateFlags.optDPSize defaultCreateFlags.optCapacity
        defaultCreateFlags.optReplicas defaultCreateFlags.optFollowerRead
        defaultCreateFlags.optAutoRepair defaultCreateFlags.optZoneName] :=
  (create_confirm_empty_accepts defaultCreateFlags "vol1" "user1"
    ⟨"", .ok ()⟩ rfl).1 rfl

/-- C7: a Transfer invocation whose fetched snapshot has a non-zero
status code (given the confirmation gate was passed) fails with the
volume-status-abnormal precondition error, and the only remote call made
is the snapshot fetch — the user lookup and the transfer call are never
reached. -/
theorem transfer_status_precondition (y fo : Bool) (v u : String)
    (env : TransferEnv) (vv : SimpleVolView) (hg : env.getVol = .ok vv)
    (hs : vv.Status ≠ 0) (hgate : y = true ∨ env.userConfirm = "yes") :
    (volTransferRun y fo v u env).2 = .errReported .statusAbnormal ∧
    remoteCalls (volTransferRun y fo v u env).1 = [.getVolumeSimpleInfo v] := by
  cases y with
  | true => simp [volTransferRun, hg, hs, remoteCalls]
  | false =>
    rcases hgate with h | h
    · exact (Bool.false_ne_true h).elim
    · simp [volTransferRun, h, hg, hs, remoteCalls]

/-- C7 witness: the Transfer precondition theorem applied to a concrete
skip-confirm invocation on a snapshot whose status is 1. -/
theorem transfer_status_precondition_witness :
    (volTransferRun true false "vol1" "user2"
      ⟨"", .ok ⟨"vol1", "owner1", 10, 3, false, false, false, false, "default", 1⟩,
        .ok ⟨"user2"⟩, .ok ()⟩).2 = .errReported .statusAbnormal ∧
    remoteCalls (volTransferRun true false "vol1" "user2"
      ⟨"", .ok ⟨"vol1", "owner1", 10, 3, false, false, false, false, "default", 1⟩,
        .ok ⟨"user2"⟩, .ok ()⟩).1 = [.getVolumeSimpleInfo "vol1"] :=
  transfer_status_precondition true false "vol1" "user2" _ _ rfl
    (by decide) (.inl rfl)

/-- C10: a Create invocation with every optional flag omitted, once the
confirmation gate passes, issues exactly one creation call carrying the
built-in defaults: meta-partition count 3, data-partition size 120 GB,
capacity 10 GB, replica count 3, follower-read on, auto-repair off, zone
name "default". -/
theorem create_defaults_payload (n u : String) (env : CreateEnv)
    (hc : env.userConfirm = "yes" ∨ env.userConfirm = "") :
    remoteCalls (volCreateRun defaultCreateFlags n u env).1 =
      [.createVolume n u 3 120 10 3 true false "default"] := by
  rcases hc with h | h <;> cases hr : env.createResult <;>
    simp [volCreateRun, h, hr, remoteCalls, defaultCreateFlags,
      cmdVolDefaultMPCount, cmdVolDefaultDPSize, cmdVolDefaultCapacity,
      cmdVolDefaultReplicas, cmdVolDefaultFollowerReader, cmdVolDefaultZoneName,
      show ("" : String).length = 0 from rfl]

/-- C10 witness: the default-payload theorem applied to a concrete
invocation confirmed with "yes". -/
theorem create_defaults_payload_witness :
    remoteCalls (volCreateRun defaultCreateFlags "v1" "u1"
      ⟨"yes", .error "duplicate vol"⟩).1 =
      [.createVolume "v1" "u1" 3 120 10 3 true false "default"] :=
  create_defaults_payload "v1" "u1" ⟨"yes", .error "duplicate vol"⟩ (.inl rfl)

/-- C2 (amended): a Set invocation in which some supplied boolean-valued
override is rejected by Go's strconv.ParseBool fails with a ParseBool
syntax error and never issues the update call (its only remote call is
the snapshot fetch), and every field whose override was not supplied is
unchanged on the working copy; however, fields supplied *before* the
offending boolean in the fixed processing order have already been applied
to the working copy when the failure occurs, and ParseBool also accepts
the non-canonical literals 1/t/T/TRUE/True and 0/f/F/FALSE/False. -/
theorem set_badBool_amended (f : SetFlags) (n : String) (env : SetEnv)
    (vv0 wc : SimpleVolView) (hg : env.getVol = .ok vv0)
    (hwc : (volSetRun f n env).workingCopy = some wc)
    (hbad : (f.optFollowerRead ≠ "" ∧ parseBool f.optFollowerRead = none) ∨
      (f.optAuthenticate ≠ "" ∧ parseBool f.optAuthenticate = none) ∨
      (f.optEnableToken ≠ "" ∧ parseBool f.optEnableToken = none) ∨
      (f.optAutoRepair ≠ "" ∧ parseBool f.optAutoRepair = none)) :
    isParseErr (volSetRun f n env).outcome = true ∧
    remoteCalls (volSetRun f n env).trace = [.getVolumeSimpleInfo n] ∧
    overrideForm f vv0 wc := by
  have hbadB : allBoolsOk f = false := by
    rcases hbad with ⟨h1, h2⟩ | ⟨h1, h2⟩ | ⟨h1, h2⟩ | ⟨h1, h2⟩ <;>
      simp [allBoolsOk, boolLitOk, h1, h2]
  obtain ⟨w, lit, hp, hne, hcore, hform⟩ := volSetCore_error f env vv0 hbadB
  have hrun : volSetRun f n env =
      ⟨[Event.call (.getVolumeSimpleInfo n)],
        .errReported (.parseBoolSyntax lit), some w⟩ := by
    simp [volSetRun, hg, hcore]
  refine ⟨?_, ?_, ?_⟩
  · rw [hrun]
    rfl
  · rw [hrun]
    simp [remoteCalls]
  · rw [hrun] at hwc
    simp at hwc
    exact hwc ▸ hform

/-- C2 counterexample: Set with capacity override 5 and follower-read
override "maybe" against a snapshot of capacity 10: the command does fail
on the unparseable boolean, but the working copy's capacity has already
been mutated from 10 to 5 when the failure occurs — refuting "fails
before any field is mutated on the working copy". -/
theorem set_badBool_cex :
    volSetRun ⟨5, 0, "maybe", "", "", "", "", false⟩ "vol1"
      ⟨.ok vvStd, "", .ok ()⟩ =
    ⟨[Event.call (.getVolumeSimpleInfo "vol1")],
      .errReported (.parseBoolSyntax "maybe"),
      some ⟨"vol1", "owner1", 5, 3, false, false, false, false, "default", 0⟩⟩ ∧
    vvStd.Capacity = 10 := by
  constructor <;> rfl

/-- C2 witness: the amended bad-boolean theorem applied to the concrete
invocation of the counterexample. -/
theorem set_badBool_witness :
    isParseErr (volSetRun ⟨5, 0, "maybe", "", "", "", "", false⟩ "vol1"
      ⟨.ok vvStd, "", .ok ()⟩).outcome = true ∧
    remoteCalls (volSetRun ⟨5, 0, "maybe", "", "", "", "", false⟩ "vol1"
      ⟨.ok vvStd, "", .ok ()⟩).trace = [.getVolumeSimpleInfo "vol1"] ∧
    overrideForm ⟨5, 0, "maybe", "", "", "", "", false⟩ vvStd
      ⟨"vol1", "owner1", 5, 3, false, false, false, false, "default", 0⟩ :=
  set_badBool_amended ⟨5, 0, "maybe", "", "", "", "", false⟩ "vol1"
    ⟨.ok vvStd, "", .ok ()⟩ vvStd
    ⟨"vol1", "owner1", 5, 3, false, false, false, false, "default", 0⟩
    rfl rfl (.inl ⟨by decide, by decide⟩)

/-- C8 (amended): in Set, a supplied capacity of 0 or a supplied replica
count ≤ 0 is treated exactly as an omitted flag (the working copy keeps
the snapshot value), a field is applied to the working copy iff its
override was supplied with a non-sentinel value, and the capacity carried
by the update call can be 0 only if the snapshot's capacity was already 0
— capacity can never be *set* to zero. The replica count, however, is
stored through a mod-256 conversion of the supplied value, so a supplied
count that is a positive multiple of 256 does yield a zero replica count
(the claim's "replica count can never be set to zero" fails there). -/
theorem set_sentinel_fields_amended (f : SetFlags) (n : String) (env : SetEnv)
    (vv0 wc : SimpleVolView) (hg : env.getVol = .ok vv0)
    (hwc : (volSetRun f n env).workingCopy = some wc) :
    wc.Capacity = (if 0 < f.optCapacity then f.optCapacity else vv0.Capacity) ∧
    wc.DpReplicaNum = (if 0 < f.optReplicas then (f.optReplicas % 256).toNat
      else vv0.DpReplicaNum) ∧
    (wc.Capacity = 0 → vv0.Capacity = 0) ∧
    overrideForm f vv0 wc ∧
    updateCaps (volSetRun f n env).trace =
      (if setIssuesUpdate f env.userConfirm then [wc.Capacity] else []) ∧
    updateReps (volSetRun f n env).trace =
      (if setIssuesUpdate f env.userConfirm then [Int.ofNat wc.DpReplicaNum]
        else []) := by
  obtain ⟨w, hw, hform, hak, hcap, hrep⟩ := volSetCore_update_calls f env vv0
  have hws : w = wc := by
    simp [volSetRun, hg, hw] at hwc
    exact hwc
  subst hws
  have hC := hform.1
  have hR := hform.2.1
  have htr : (volSetRun f n env).trace =
      Event.call (.getVolumeSimpleInfo n) :: (volSetCore f env vv0).1 := by
    simp [volSetRun, hg]
  have hcz : w.Capacity = 0 → vv0.Capacity = 0 := by
    intro h0
    rw [hC] at h0
    by_cases hcp : 0 < f.optCapacity
    · rw [if_pos hcp] at h0
      omega
    · rwa [if_neg hcp] at h0
  refine ⟨hC, hR, hcz, hform, ?_, ?_⟩
  · rw [htr, updateCaps_fetch, hcap]
  · rw [htr, updateReps_fetch, hrep]

/-- C8 counterexample: Set with replica override 256 (and skip-confirm)
against a snapshot with 3 replicas issues an update whose replica count is
0 — the uint8 conversion wraps 256 to 0 — refuting "replica count can
never be set to zero through Set". -/
theorem set_sentinel_cex :
    updateReps (volSetRun ⟨0, 256, "", "", "", "", "", true⟩ "vol1"
      ⟨.ok vvStd, "", .ok ()⟩).trace = [(0 : Int)] ∧
    vvStd.DpReplicaNum = 3 := by
  constructor <;> rfl

/-- C8 witness: the amended sentinel theorem applied to a concrete
skip-confirm Set invocation overriding only capacity to 80. -/
theorem set_sentinel_witness :
    updateCaps (volSetRun ⟨80, 0, "", "", "", "", "", true⟩ "vol1"
      ⟨.ok vvStd, "", .ok ()⟩).trace = [80] ∧
    updateReps (volSetRun ⟨80, 0, "", "", "", "", "", true⟩ "vol1"
      ⟨.ok vvStd, "", .ok ()⟩).trace = [Int.ofNat 3] := by
  have h := set_sentinel_fields_amended ⟨80, 0, "", "", "", "", "", true⟩ "vol1"
    ⟨.ok vvStd, "", .ok ()⟩ vvStd
    ⟨"vol1", "owner1", 80, 3, false, false, false, false, "default", 0⟩ rfl rfl
  exact ⟨(h.2.2.2.2.1).trans (by rfl), (h.2.2.2.2.2).trans (by rfl)⟩

/-- C9: calcAuthKey is a pure deterministic function of the owner string
alone: repeated derivations agree, and two Set invocations whose fetched
snapshots share the owner string but differ in arbitrary other volume
state put the same authorization key on their update calls. -/
theorem authKey_owner_deterministic :
    (∀ o : String, calcAuthKey o = calcAuthKey o) ∧
    (∀ (f : SetFlags) (n₁ n₂ c : String) (u₁ u₂ : Except String Unit)
        (vv₁ vv₂ : SimpleVolView), vv₁.Owner = vv₂.Owner →
      updateAuthKeys (volSetRun f n₁ ⟨.ok vv₁, c, u₁⟩).trace =
        updateAuthKeys (volSetRun f n₂ ⟨.ok vv₂, c, u₂⟩).trace) := by
  refine ⟨fun o => rfl, ?_⟩
  intro f n₁ n₂ c u₁ u₂ vv₁ vv₂ hown
  obtain ⟨w₁, hw₁, hform₁, hak₁, hcap₁, hrep₁⟩ :=
    volSetCore_update_calls f ⟨.ok vv₁, c, u₁⟩ vv₁
  obtain ⟨w₂, hw₂, hform₂, hak₂, hcap₂, hrep₂⟩ :=
    volSetCore_update_calls f ⟨.ok vv₂, c, u₂⟩ vv₂
  have h₁ : (volSetRun f n₁ ⟨.ok vv₁, c, u₁⟩).trace =
      Event.call (.getVolumeSimpleInfo n₁) ::
        (volSetCore f ⟨.ok vv₁, c, u₁⟩ vv₁).1 := by
    simp [volSetRun]
  have h₂ : (volSetRun f n₂ ⟨.ok vv₂, c, u₂⟩).trace =
      Event.call (.getVolumeSimpleInfo n₂) ::
        (volSetCore f ⟨.ok vv₂, c, u₂⟩ vv₂).1 := by
    simp [volSetRun]
  have ho₁ : w₁.Owner = vv₁.Owner := hform₁.2.2.2.2.2.2.2.2.1
  have ho₂ : w₂.Owner = vv₂.Owner := hform₂.2.2.2.2.2.2.2.2.1
  rw [h₁, h₂, updateAuthKeys_fetch, updateAuthKeys_fetch, hak₁, hak₂,
    ho₁, ho₂, hown]

/-- C9 witness: the determinism theorem applied to two concrete Set
invocations over snapshots equal in owner and different everywhere else. -/
theorem authKey_owner_deterministic_witness :
    updateAuthKeys (volSetRun ⟨1, 0, "", "", "", "", "", true⟩ "vol1"
      ⟨.ok vvStd, "yes", .ok ()⟩).trace =
    updateAuthKeys (volSetRun ⟨1, 0, "", "", "", "", "", true⟩ "other"
      ⟨.ok vvOwnerTwin, "yes", .error "x"⟩).trace :=
  authKey_owner_deterministic.2 ⟨1, 0, "", "", "", "", "", true⟩ "vol1" "other"
    "yes" (.ok ()) (.error "x") vvStd vvOwnerTwin rfl

end ChubaoFS
